import Mathlib

/-!
# Verification of the tk-multi-loader2 Houdini actions hook

A shallow embedding of `hooks/tk-houdini_actions.py`.  The hook talks to a
live Houdini session through the `hou` scripting API; we model the session
as an abstract `Host` environment (filesystem answers, pane layout, dialog
answers, node-creation failures) and each hook method as a pure function
producing a trace of host-API effects (`Event`) together with an optional
Python exception (`Except PyErr Unit`).  All string manipulation is
re-implemented with structural recursion over character lists so that every
definition evaluates inside the kernel.
-/

namespace TkHoudini

/-! ## String utilities (models of the Python string/regex operations used) -/

/-- `List.isPrefixOf`-based model of `str.startswith`. -/
def strStartsWith (s pre : String) : Bool :=
  pre.toList.isPrefixOf s.toList

/-- Replace every occurrence of a (non-empty) pattern, structurally by fuel.
Model of Python `str.replace`. -/
def replaceL (pat repl : List Char) : Nat → List Char → List Char
  | 0, l => l
  | _ + 1, [] => []
  | fuel + 1, c :: rest =>
    if pat.isPrefixOf (c :: rest) then
      repl ++ replaceL pat repl fuel (rest.drop (pat.length - 1))
    else
      c :: replaceL pat repl fuel rest

/-- Model of Python `str.replace` (the empty pattern never occurs in the hook). -/
def strReplace (s pat repl : String) : String :=
  if pat.isEmpty then s
  else ⟨replaceL pat.toList repl.toList s.toList.length s.toList⟩

/-- Split on a single separator character, model of Python `str.split(sep)`. -/
def splitCharL (sep : Char) : List Char → List (List Char)
  | [] => [[]]
  | c :: rest =>
    let r := splitCharL sep rest
    if c = sep then [] :: r
    else (c :: r.headD []) :: r.tail

/-- Prefix of a list before the first occurrence of a (non-empty) pattern:
model of Python `str.split(pat)[0]`. -/
def takeUntilSub (pat : List Char) : List Char → List Char
  | [] => []
  | c :: rest =>
    if pat.isPrefixOf (c :: rest) then []
    else c :: takeUntilSub pat rest

/-- Number of occurrences of a character, model of `str.count(ch)` for the
single-character counts used by the hook. -/
def strCount (s : String) (ch : Char) : Nat :=
  s.toList.count ch

/-- Model of `posixpath.basename`: everything after the last `/`. -/
def osPathBasename (s : String) : String :=
  ⟨(splitCharL '/' s.toList).getLastD []⟩

/-- Model of `os.path.join` for POSIX separators, as used on the studio's
render filers. -/
def osPathJoin (a b : String) : String :=
  if strStartsWith b "/" then b
  else if a = "" then b
  else if a.toList.getLast? = some '/' then a ++ b
  else a ++ "/" ++ b

/-- ASCII alphanumeric test (`[^\W_]` of the Python regex, ASCII range). -/
def isAlnum (c : Char) : Bool :=
  c.isAlpha || c.isDigit

/-- Collapse every maximal run of non-alphanumeric characters into a single
underscore: model of `re.compile("[\W_]+").sub("_", s)`.  The boolean flag
records whether we are inside a run that has already emitted its `_`. -/
def collapseNonAlnum : Bool → List Char → List Char
  | _, [] => []
  | inRun, c :: rest =>
    if isAlnum c then c :: collapseNonAlnum false rest
    else if inRun then collapseNonAlnum true rest
    else '_' :: collapseNonAlnum true rest

/-- Model of `re.compile("[\W_]+").sub("_", s)` on a string. -/
def sanitizeNodeName (s : String) : String :=
  ⟨collapseNonAlnum false s.toList⟩

/-- Find the padding digit of the first `%0<digit>d` frame spec in the list,
the group `(\d)` of `re.search("(%0(\d)d)", path)`. -/
def findFrameDigit : List Char → Option Char
  | '%' :: '0' :: d :: 'd' :: rest =>
    if d.isDigit then some d
    else findFrameDigit ('0' :: d :: 'd' :: rest)
  | _ :: rest => findFrameDigit rest
  | [] => none

/-- Model of the `%04d => $F4` substitution performed by `_file_sop` and
`_file_cop`: search for the first `%0<digit>d` spec and replace all of its
occurrences with `$F<digit>`. -/
def frameReplace (s : String) : String :=
  match findFrameDigit s.toList with
  | none => s
  | some d =>
    strReplace s ("%0" ++ String.singleton d ++ "d") ("$F" ++ String.singleton d)

/-- First match of `re.search("([^.]+)", name)`: the first maximal run of
non-dot characters, if any. -/
def firstNonDotRun (s : String) : Option String :=
  match s.toList.dropWhile (fun c => c = '.') with
  | [] => none
  | l => some ⟨l.takeWhile (fun c => c ≠ '.')⟩

/-- First match of `re.search("_v\d{3}", name)`: the first occurrence of
`_v` followed by three digits, returned as the matched characters. -/
def findVersionTag : List Char → Option (List Char)
  | '_' :: 'v' :: a :: b :: c :: rest =>
    if a.isDigit && b.isDigit && c.isDigit then some ['_', 'v', a, b, c]
    else findVersionTag ('v' :: a :: b :: c :: rest)
  | _ :: rest => findVersionTag rest
  | [] => none

/-- Substring test over character lists, model of Python `needle in hay`. -/
def containsSub (hay needle : List Char) : Bool :=
  match hay with
  | [] => needle.isEmpty
  | _ :: t => if needle.isPrefixOf hay then true else containsSub t needle

/-- `containsSub` on strings: model of `"Alpha" in image_node.name()`. -/
def strContains (hay needle : String) : Bool :=
  containsSub hay.toList needle.toList

/-- Concatenation of the images of a list, structural stand-in for
`List.flatMap` so that everything reduces by `rfl`. -/
def concatMap (f : α → List β) : List α → List β
  | [] => []
  | a :: l => f a ++ concatMap f l

/-! ## Data model -/

/-- The fields of the Shotgun publish dictionary that the hook reads.
`name` models `sg_publish_data.get("name")` (absent keys give `none`);
the entity/task names and the publish code are modelled as present, since
their absence makes the Python raise `AttributeError`/`TypeError` before any
scene mutation. -/
structure PublishData where
  name : Option String
  entityName : String
  taskName : String
  code : String
deriving DecidableEq, Repr

/-- Python's `str(...)` of an optional string, as interpolated by f-strings:
a missing key prints as `None`. -/
def optStr (o : Option String) : String :=
  o.getD "None"

/-- A Houdini pane tab, with the three attributes inspected by
`_get_current_network_panetab`. -/
structure Pane where
  isNetworkEditor : Bool
  pwdPath : String
  isCurrentTab : Bool
deriving DecidableEq, Repr

/-- The ambient Houdini session and operating system, holding every query the
hook makes of its environment.  `createFails` tells whether
`createNode` under a given parent path raises `hou.OperationFailed`;
`selectChoice` is the index chosen in `hou.ui.selectFromList` (`none` for an
empty/cancelled selection); `messageChoice` is the button index returned by
the Yes/No `hou.ui.displayMessage`; `nodeExists` answers `node.node(path)`
lookups for pre-existing nodes such as `mtlxstandard_surface`. -/
structure Host where
  pathExists : String → Bool
  listdir : String → List String
  getPublishPath : PublishData → String
  osSep : String
  panes : List Pane
  createFails : String → Bool
  imgComps : List String
  materialSubnets : List String
  selectChoice : Option Nat
  messageChoice : Nat
  nodeExists : String → Bool

/-- Python exceptions that the modelled code can raise. -/
inductive PyErr where
  | exception (msg : String)
  | operationFailed
  | unboundLocalError
  | typeError
deriving DecidableEq, Repr

/-- One effect performed against the Houdini session (or the logger).
`createNode parent ntype node` records a `parent.createNode(ntype, ...)`
call whose new node lives at path `node`. -/
inductive Event where
  | checkExists (path : String)
  | hipMerge (path : String)
  | logDebug (msg : String)
  | logInfo (msg : String)
  | createNode (parent ntype node : String)
  | destroyChildren (node : String)
  | setParm (node parm value : String)
  | pressButton (node parm : String)
  | setInput (node : String) (idx : Nat) (src : String)
  | setNamedInput (node input src : String)
  | layoutChildren (node : String)
  | allowEditContents (node : String)
  | createStickyNote (parent text : String)
  | displayMessage (msg : String)
  | selectFromList (title : String)
  | showNode (node : String)
deriving DecidableEq, Repr

instance : DecidableEq (Except PyErr Unit)
  | .ok (), .ok () => isTrue rfl
  | .error a, .error b =>
    if h : a = b then isTrue (h ▸ rfl) else isFalse (fun hc => h (by cases hc; rfl))
  | .ok (), .error _ => isFalse (fun hc => Except.noConfusion hc)
  | .error _, .ok () => isFalse (fun hc => Except.noConfusion hc)

/-- Result of running a hook method: the trace of effects performed before
returning or raising, and the outcome. -/
abbrev Res := List Event × Except PyErr Unit

/-- Is this event a `os.path.exists` check? -/
def Event.isCheck : Event → Bool
  | .checkExists _ => true
  | _ => false

/-- Is this event a `createNode` call? -/
def Event.isCreate : Event → Bool
  | .createNode _ _ _ => true
  | _ => false

/-- Number of nodes created in a run. -/
def createdCount (r : Res) : Nat :=
  r.1.countP Event.isCreate

/-- No `os.path.exists` check occurs in the run. -/
def noExistsCheck (r : Res) : Prop :=
  r.1.countP Event.isCheck = 0

/-- Every node created during the run has its parent under the given
context prefix. -/
def createdUnder (pre : String) (r : Res) : Prop :=
  ∀ p t n, Event.createNode p t n ∈ r.1 → strStartsWith p pre = true

/-- Does this event set the given parameter to the given value (on any
node)? -/
def Event.isSetParmTo (parm value : String) : Event → Bool
  | .setParm _ p v => p == parm && v == value
  | _ => false

/-- Some node's parameter `parm` is set to `value` during the run. -/
def setsParmTo (parm value : String) (r : Res) : Prop :=
  r.1.any (Event.isSetParmTo parm value) = true

/-! ## Module-level helper functions of the hook -/

/-- `_get_current_network_panetab`: the `pwd` path of the first pane tab that
is a network editor, displays a path under `context_type`, and is the current
tab of its pane; `none` when there is no such tab. -/
def _get_current_network_panetab (host : Host) (contextType : String) : Option String :=
  (host.panes.find? fun p =>
    p.isNetworkEditor && strStartsWith p.pwdPath contextType && p.isCurrentTab).map
    Pane.pwdPath

/-- `_get_current_context`: the full context shown in the current network
pane for the context type, defaulting to the top-level context itself. -/
def _get_current_context (host : Host) (contextType : String) : String :=
  match _get_current_network_panetab host contextType with
  | some p => p
  | none => contextType

/-- `_show_node`: frame the node in the current network pane.  The Python
computes `context_type = "/" + node.path().split("/")[0]`, which is always
`"/"` because node paths start with `/`; we translate that expression
faithfully.  The selection, `cd` and `frameSelection` calls are folded into
one `showNode` event; when no suitable pane exists nothing happens. -/
def _show_node (host : Host) (nodePath : String) : List Event :=
  let contextType := "/" ++ String.mk ((splitCharL '/' nodePath.toList).headD [])
  match _get_current_network_panetab host contextType with
  | none => []
  | some _ => [.showNode nodePath]

/-- `_material_selection_menu`: all material subnet nodes found inside
material libraries are offered in a selection dialog; with none present an
error dialog is shown and `None` returned, and an empty selection also
returns `None`.  `host.materialSubnets` lists the paths of the subnet nodes
found inside `materiallibrary` instances, and the chosen index is looked up
in that list. -/
def _material_selection_menu (host : Host) : List Event × Option String :=
  if host.materialSubnets.isEmpty then
    ([.displayMessage "You don't have any material subnets in your scene. Please make one to add the image node to."],
     none)
  else
    ([.selectFromList "Select material node to add image node to."],
     match host.selectChoice with
     | none => none
     | some i => some (host.materialSubnets.getD i ""))

/-! ## Action helper methods -/

/-- `_merge`: raise unless the path exists on disk, then merge the hip file
with separators normalised to `/`. -/
def _merge (host : Host) (path : String) (sg_publish_data : PublishData) : Res :=
  if host.pathExists path then
    ([.checkExists path, .hipMerge (strReplace path host.osSep "/")], .ok ())
  else
    ([.checkExists path],
     .error (.exception ("File not found on disk - '" ++ path ++ "'")))

/-- `_import`: create a geo node in the current `/obj` context (falling back
to top-level `/obj` on `hou.OperationFailed`), clear its default children,
and create an alembic SOP pointing at the re-resolved publish path. -/
def _import (host : Host) (path : String) (sg_publish_data : PublishData) : Res :=
  let name := sg_publish_data.name.getD "alembic"
  let path := host.getPublishPath sg_publish_data
  let path := strReplace path "\\" "/"
  let objContext := _get_current_context host "/obj"
  let objContext := if host.createFails objContext then "/obj" else objContext
  if host.createFails objContext then
    ([], .error .operationFailed)
  else
    let geo := objContext ++ "/" ++ name
    let pre := [Event.createNode objContext "geo" geo,
                .logDebug ("Created geo node: " ++ geo),
                .destroyChildren geo]
    if host.createFails geo then
      (pre, .error .operationFailed)
    else
      let sop := geo ++ "/" ++ name
      (pre ++ [.createNode geo "alembic" sop,
               .setParm sop "fileName" path,
               .logDebug ("Creating alembic sop: " ++ sop ++ " path: " ++ path),
               .pressButton sop "reload"]
          ++ _show_node host sop,
       .ok ())

/-- `_stage_import`: create a `sopcreate` LOP under `/stage`, allow editing
of its contents, and create an alembic SOP inside its `sopnet/create`
network pointing at the re-resolved publish path.  The Python wraps the
final `_show_node` in `try/except UnboundLocalError: pass`, which is a
no-op since `_show_node` cannot raise it. -/
def _stage_import (host : Host) (path : String) (sg_publish_data : PublishData) : Res :=
  let name := sg_publish_data.name.getD "alembic"
  let path := host.getPublishPath sg_publish_data
  let path := strReplace path "\\" "/"
  if host.createFails "/stage" then
    ([], .error .operationFailed)
  else
    let sc := "/stage/" ++ name
    let inner := sc ++ "/sopnet/create"
    let pre := [Event.createNode "/stage" "sopcreate" sc, .allowEditContents sc]
    if host.createFails inner then
      (pre, .error .operationFailed)
    else
      let ab := inner ++ "/" ++ name
      (pre ++ [.createNode inner "alembic" ab,
               .setParm ab "fileName" path,
               .pressButton ab "reload"]
          ++ _show_node host sc,
       .ok ())

/-- `_file_sop`: strip frame specs and version tags from the publish name,
replace the first `%0Nd` frame spec in the path by `$FN`, then create a geo
node in the current `/obj` context (with top-level fallback) holding a file
SOP.  `sg_publish_data.get("name")` has no default here, so a publish
without a name makes `re.search` raise `TypeError`. -/
def _file_sop (host : Host) (path : String) (sg_publish_data : PublishData) : Res :=
  let path := host.getPublishPath sg_publish_data
  let path := frameReplace path
  match sg_publish_data.name with
  | none => ([], .error .typeError)
  | some name =>
    let name := (firstNonDotRun name).getD name
    let name :=
      match findVersionTag name.toList with
      | none => name
      | some tag => strReplace name ⟨tag⟩ ""
    let path := strReplace path "\\" "/"
    let objContext := _get_current_context host "/obj"
    let objContext := if host.createFails objContext then "/obj" else objContext
    if host.createFails objContext then
      ([.logInfo name], .error .operationFailed)
    else
      let geo := objContext ++ "/" ++ name
      let pre := [Event.logInfo name,
                  .createNode objContext "geo" geo,
                  .logDebug ("Created geo node: " ++ geo),
                  .destroyChildren geo]
      if host.createFails geo then
        (pre, .error .operationFailed)
      else
        let sop := geo ++ "/" ++ name
        (pre ++ [.createNode geo "file" sop,
                 .setParm sop "file" path,
                 .logInfo ("Creating file sop: " ++ sop ++ " path: " ++ path),
                 .pressButton sop "reload"]
            ++ _show_node host sop,
         .ok ())

/-- `_usd_reference`: create a `reference` LOP under `/stage` named after the
entity and task, pointing at the re-resolved publish path, loaded as a
grouped payload. -/
def _usd_reference (host : Host) (path : String) (sg_publish_data : PublishData) : Res :=
  let name := sg_publish_data.entityName ++ "_" ++ sg_publish_data.taskName
  let name := strReplace name " " "_"
  let path := host.getPublishPath sg_publish_data
  let path := strReplace path "\\" "/"
  if host.createFails "/stage" then
    ([.logInfo name], .error .operationFailed)
  else
    let rn := "/stage/" ++ name
    ([.logInfo name,
      .createNode "/stage" "reference" rn,
      .setParm rn "filepath1" path,
      .setParm rn "primpath" "/scene/$OS",
      .setParm rn "primkind" "group",
      .setParm rn "reftype" "payload",
      .pressButton rn "reload"]
        ++ _show_node host rn,
     .ok ())

/-- `_usd_sublayer`: create a `sublayer` LOP under `/stage` named after the
entity and task, pointing at the re-resolved publish path. -/
def _usd_sublayer (host : Host) (path : String) (sg_publish_data : PublishData) : Res :=
  let name := sg_publish_data.entityName ++ "_" ++ sg_publish_data.taskName
  let name := strReplace name " " "_"
  let path := host.getPublishPath sg_publish_data
  let path := strReplace path "\\" "/"
  if host.createFails "/stage" then
    ([.logInfo name], .error .operationFailed)
  else
    let sn := "/stage/" ++ name
    ([.logInfo name,
      .createNode "/stage" "sublayer" sn,
      .setParm sn "filepath1" path,
      .pressButton sn "reload"]
        ++ _show_node host sn,
     .ok ())

/-- `_materialx_image`: ask the user for a material subnet and create a
`mtlximage` node inside it, named after the first word of the publish code,
pointing at the re-resolved publish path.  A cancelled menu returns without
doing anything. -/
def _materialx_image (host : Host) (path : String) (sg_publish_data : PublishData) : Res :=
  let name := sg_publish_data.entityName ++ "_" ++ sg_publish_data.taskName
  let name := strReplace name " " "_"
  let path := host.getPublishPath sg_publish_data
  let path := strReplace path "\\" "/"
  let menu := _material_selection_menu host
  match menu.2 with
  | none => ([.logInfo name] ++ menu.1, .ok ())
  | some materialNode =>
    let nodeName := String.mk (takeUntilSub [' '] sg_publish_data.code.toList)
    if host.createFails materialNode then
      ([.logInfo name] ++ menu.1, .error .operationFailed)
    else
      let img := materialNode ++ "/" ++ nodeName
      ([.logInfo name] ++ menu.1
         ++ [.createNode materialNode "mtlximage" img,
             .setParm img "file" path]
         ++ _show_node host img,
       .ok ())

/-- The `<UDIM>` file name built for a directory entry with two dots:
`f"{file.split('.')[0]}.<UDIM>.{file.split('.')[2]}"`. -/
def udimName (file : String) : String :=
  let parts := splitCharL '.' file.toList
  String.mk (parts.headD []) ++ ".<UDIM>." ++ String.mk (parts.getD 2 [])

/-- The loop over `os.listdir(path)` at the top of `_materialx_folder`.
`cur` is the current value of the `new_filename` local: it is (re)assigned
only for entries with exactly two dots, and reading it while unassigned
raises `UnboundLocalError`. -/
def folderScan (path : String) : List String → Option String → List String →
    Except PyErr (List String)
  | [], _, acc => .ok acc
  | f :: rest, cur, acc =>
    let cur := if strCount f '.' == 2 then some (udimName f) else cur
    match cur with
    | none => .error .unboundLocalError
    | some nf =>
      let p := osPathJoin path nf
      folderScan path rest (some nf) (if acc.contains p then acc else acc ++ [p])

/-- The node name for one collected file path:
`os.path.basename(file_path).split(" - ")[0]`. -/
def folderNodeName (filePath : String) : String :=
  String.mk (takeUntilSub [' ', '-', ' '] (osPathBasename filePath).toList)

/-- The `createNode`/`setParm` pair for one collected file path in the
image-creation loop of `_materialx_folder`. -/
def folderCreateEvents (materialNode filePath : String) : List Event :=
  let np := materialNode ++ "/" ++ folderNodeName filePath
  [.createNode materialNode "mtlximage" np,
   .setParm np "file" (strReplace filePath "\\" "/")]

/-- One iteration of the automatic texture-connection loop of
`_materialx_folder`, keyed on substrings of the image node's name. -/
def folderConnectEvents (host : Host) (materialNode surf np : String) : List Event :=
  let nm := folderNodeName np
  (if strContains nm "Alpha" then [Event.setNamedInput surf "opacity" np] else [])
    ++ (if strContains nm "BaseColor" then [Event.setNamedInput surf "base_color" np] else [])
    ++ (if strContains nm "Displacement" then
          [Event.setParm np "signature" "default"]
            ++ (if host.nodeExists (materialNode ++ "/mtlxdisplacement") then
                  let rg := materialNode ++ "/mtlxrange1"
                  [Event.createNode materialNode "mtlxrange" rg,
                   .setNamedInput rg "in" np,
                   .setParm rg "outlow" "-0.5",
                   .setParm rg "outhigh" "0.5",
                   .setNamedInput (materialNode ++ "/mtlxdisplacement") "displacement" rg]
                else
                  [Event.displayMessage "Could not find a MaterialX Displacement node to add displacement to. Skipping."])
        else [])
    ++ (if strContains nm "Emission" then
          [Event.setParm np "signature" "default", .setNamedInput surf "emission" np]
        else [])
    ++ (if strContains nm "Metallic" then
          [Event.setParm np "signature" "default", .setNamedInput surf "metalness" np]
        else [])
    ++ (if strContains nm "Normal" then
          let nmap := materialNode ++ "/mtlxnormalmap1"
          [Event.setParm np "signature" "vector3",
           .createNode materialNode "mtlxnormalmap" nmap,
           .setNamedInput nmap "in" np,
           .setNamedInput surf "normal" nmap]
        else [])
    ++ (if strContains nm "Roughness" then
          [Event.setParm np "signature" "default",
           .setNamedInput surf "diffuse_roughness" np]
        else [])

/-- `_materialx_folder`: scan the directory given by the `path` argument for
texture files (the `folderScan` loop, with its unbound `new_filename`
hazard), ask for a material subnet, create one `mtlximage` per collected
`<UDIM>` path, then optionally auto-connect the textures to an existing
`mtlxstandard_surface` node.  When `folderScan` returns an empty list the
final `_show_node(image_node)` reads the unassigned loop variable and
raises `UnboundLocalError`.  Node names are taken as-given (Houdini's
uniquification of clashing names is not modelled). -/
def _materialx_folder (host : Host) (path : String) (sg_publish_data : PublishData) : Res :=
  match folderScan path (host.listdir path) none [] with
  | .error e => ([], .error e)
  | .ok filePathsToLoad =>
    let menu := _material_selection_menu host
    match menu.2 with
    | none => (menu.1, .ok ())
    | some materialNode =>
      match filePathsToLoad with
      | [] => (menu.1 ++ [.layoutChildren materialNode], .error .unboundLocalError)
      | f0 :: fs =>
        if host.createFails materialNode then
          (menu.1, .error .operationFailed)
        else
          let createEvs := concatMap (folderCreateEvents materialNode) (f0 :: fs)
          let lastNp := materialNode ++ "/" ++ folderNodeName ((f0 :: fs).getLastD f0)
          let evs1 := menu.1 ++ createEvs ++ [.layoutChildren materialNode]
                       ++ _show_node host lastNp
                       ++ [.displayMessage "Would you like to automatically add the textures to their correct input?"]
          if host.messageChoice ≠ 0 then
            (evs1, .ok ())
          else
            let surf := materialNode ++ "/mtlxstandard_surface"
            if host.nodeExists surf then
              let connectEvs := concatMap
                (fun fp => folderConnectEvents host materialNode surf
                  (materialNode ++ "/" ++ folderNodeName fp)) (f0 :: fs)
              (evs1 ++ connectEvs ++ [.layoutChildren materialNode], .ok ())
            else
              (evs1 ++ [.displayMessage "Could not find a MaterialX Standard Surface node to automatically add the textures to."],
               .ok ())

/-- The sticky-note instructions written by `_component_builder`. -/
def componentBuilderNote : String :=
  "1. Create your materials in the materiallibrary node. 2. Import the textures using the ShotGrid loader. 3. Assign the materials to your model. 4. Once your shading work is done, click 'save to disk' on the sgtk_usd_rop. 5. Publish the USD file with the ShotGrid publisher."

/-- `_component_builder`: build the five-node component-builder chain under
`/stage` (`componentgeometry`, `materiallibrary`, `componentmaterial`,
`componentoutput`, `sgtk_usd_rop`), wire it up, create a file SOP inside the
component geometry pointing at the re-resolved publish path, and leave a
sticky note with instructions.  Automatic node names (`materiallibrary1`,
`sgtk_usd_rop1`, `file1`) follow Houdini's default numbering; the sticky
note's move/resize calls are folded into its creation event, and the final
`try/except UnboundLocalError` around `_show_node` is a no-op. -/
def _component_builder (host : Host) (path : String) (sg_publish_data : PublishData) : Res :=
  let name := sg_publish_data.entityName ++ "_" ++ sg_publish_data.taskName
  let name := strReplace name " " "_"
  let path := host.getPublishPath sg_publish_data
  let path := strReplace path "\\" "/"
  if host.createFails "/stage" then
    ([.logInfo name], .error .operationFailed)
  else
    let cg := "/stage/" ++ optStr sg_publish_data.name ++ "_geometry"
    let ml := "/stage/materiallibrary1"
    let cm := "/stage/" ++ optStr sg_publish_data.name ++ "_material"
    let co := "/stage/" ++ optStr sg_publish_data.name
    let rop := "/stage/sgtk_usd_rop1"
    let geoNet := cg ++ "/sopnet/geo"
    let pre := [Event.logInfo name,
                .createNode "/stage" "componentgeometry" cg,
                .createNode "/stage" "materiallibrary" ml,
                .createNode "/stage" "componentmaterial" cm,
                .createNode "/stage" "componentoutput" co,
                .createNode "/stage" "sgtk_usd_rop" rop,
                .setInput cm 0 cg,
                .setInput cm 1 ml,
                .setInput co 0 cm,
                .setInput rop 0 co,
                .layoutChildren "/stage"]
    if host.createFails geoNet then
      (pre, .error .operationFailed)
    else
      let fileNode := geoNet ++ "/file1"
      (pre ++ [.createNode geoNet "file" fileNode,
               .setParm fileNode "file" path,
               .setInput (geoNet ++ "/default") 0 fileNode,
               .setParm co "localize" "False",
               .createStickyNote "/stage" componentBuilderNote]
          ++ _show_node host rop,
       .ok ())

/-- `_file_cop`: create a `file` COP named after the sanitised publish name
in the current `/img` context; on `hou.OperationFailed` fall back to the
first comp network under `/img`, creating `comp1` when none exists.  The
`%0Nd` frame spec of the path is replaced by `$FN` before being set. -/
def _file_cop (host : Host) (path : String) (sg_publish_data : PublishData) : Res :=
  let publishName := sg_publish_data.name.getD "published_file"
  let publishName := sanitizeNodeName publishName
  let path := host.getPublishPath sg_publish_data
  let path := strReplace path "\\" "/"
  let imgContext := _get_current_context host "/img"
  let finish : List Event → String → Res := fun pre fileCop =>
    let path := frameReplace path
    (pre ++ [Event.setParm fileCop "filename1" path,
             .logDebug ("Created file COP: " ++ fileCop ++ " path: " ++ path),
             .pressButton fileCop "reload"]
        ++ _show_node host fileCop,
     .ok ())
  if host.createFails imgContext then
    match host.imgComps with
    | c :: _ =>
      let imgNetwork := "/img/" ++ c
      if host.createFails imgNetwork then
        ([], .error .operationFailed)
      else
        finish [.createNode imgNetwork "file" (imgNetwork ++ "/" ++ publishName)]
          (imgNetwork ++ "/" ++ publishName)
    | [] =>
      if host.createFails "/img" then
        ([], .error .operationFailed)
      else
        let imgNetwork := "/img/comp1"
        if host.createFails imgNetwork then
          ([.createNode "/img" "img" imgNetwork], .error .operationFailed)
        else
          finish [.createNode "/img" "img" imgNetwork,
                  .createNode imgNetwork "file" (imgNetwork ++ "/" ++ publishName)]
            (imgNetwork ++ "/" ++ publishName)
  else
    finish [.createNode imgContext "file" (imgContext ++ "/" ++ publishName)]
      (imgContext ++ "/" ++ publishName)

/-! ## Public interface -/

/-- One action-instance dictionary returned by `generate_actions`: its keys
are exactly `name`, `params`, `caption` and `description`. -/
structure ActionInstance where
  name : String
  params : Option String
  caption : String
  description : String
deriving DecidableEq, Repr

/-- The ten action names this hook recognises, in the order their `if`
blocks appear in `generate_actions`. -/
def knownActions : List String :=
  ["merge", "file_sop", "import", "stage_import", "file_cop",
   "materialx_image", "materialx_folder", "component_builder",
   "usd_reference", "usd_sublayer"]

/-- `generate_actions`: one instance dictionary, with `params = None`, for
each recognised action name present in the configured list.  The publish
data and UI area only feed the debug log. -/
def generate_actions (sg_publish_data : PublishData) (actions : List String)
    (ui_area : String) : List ActionInstance :=
  (if "merge" ∈ actions then
    [⟨"merge", none, "Merge", "This will merge the item into the scene."⟩] else [])
  ++ (if "file_sop" ∈ actions then
    [⟨"file_sop", none, "Import as file node",
      "This will import the item into the scene through a file node."⟩] else [])
  ++ (if "import" ∈ actions then
    [⟨"import", none, "Import",
      "Import the Alembic cache file into a geometry network."⟩] else [])
  ++ (if "stage_import" ∈ actions then
    [⟨"stage_import", none, "Stage import",
      "Import the Alembic cache file into the stage."⟩] else [])
  ++ (if "file_cop" ∈ actions then
    [⟨"file_cop", none, "File COP",
      "Load an image or image sequence via File COP."⟩] else [])
  ++ (if "materialx_image" ∈ actions then
    [⟨"materialx_image", none, "Import as MaterialX image",
      "Load image in a MaterialX node and add it to stage context."⟩] else [])
  ++ (if "materialx_folder" ∈ actions then
    [⟨"materialx_folder", none, "Import as MaterialX images",
      "Load texture folder as MaterialX image nodes and add it to stage context."⟩] else [])
  ++ (if "component_builder" ∈ actions then
    [⟨"component_builder", none, "Create component builder",
      "Creates a configured component builder for shading work."⟩] else [])
  ++ (if "usd_reference" ∈ actions then
    [⟨"usd_reference", none, "Reference",
      "This will create a reference node in the stage context."⟩] else [])
  ++ (if "usd_sublayer" ∈ actions then
    [⟨"usd_sublayer", none, "Sublayer",
      "This will create a sublayer node in the stage context."⟩] else [])

/-- `execute_action`: log, resolve the publish path once, and run the helper
whose name matches.  The ten `if name == ...` statements of the Python are
sequential but mutually exclusive, hence the chain. -/
def execute_action (host : Host) (name : String) (params : Option String)
    (sg_publish_data : PublishData) : Res :=
  let path := host.getPublishPath sg_publish_data
  let log := Event.logDebug ("Execute action called for action " ++ name)
  let run : Res :=
    if name = "merge" then _merge host path sg_publish_data
    else if name = "file_sop" then _file_sop host path sg_publish_data
    else if name = "materialx_image" then _materialx_image host path sg_publish_data
    else if name = "materialx_folder" then _materialx_folder host path sg_publish_data
    else if name = "component_builder" then _component_builder host path sg_publish_data
    else if name = "usd_reference" then _usd_reference host path sg_publish_data
    else if name = "usd_sublayer" then _usd_sublayer host path sg_publish_data
    else if name = "import" then _import host path sg_publish_data
    else if name = "stage_import" then _stage_import host path sg_publish_data
    else if name = "file_cop" then _file_cop host path sg_publish_data
    else ([], .ok ())
  (log :: run.1, run.2)

/-- One entry of the list passed to `execute_multiple_actions`.  The
`params` value is always `None` for this hook (see `generate_actions`) and
is ignored by `execute_action`. -/
structure ActionItem where
  name : String
  sg_publish_data : PublishData
  params : Option String
deriving DecidableEq, Repr

/-- `execute_multiple_actions`: dispatch each item in order to
`execute_action`; an uncaught exception stops the loop. -/
def execute_multiple_actions (host : Host) : List ActionItem → Res
  | [] => ([], .ok ())
  | a :: rest =>
    match execute_action host a.name a.params a.sg_publish_data with
    | (evs, .error e) => (evs, .error e)
    | (evs, .ok ()) =>
      let r := execute_multiple_actions host rest
      (evs ++ r.1, r.2)

/-- The concatenated effect traces of a list of action items, each executed
independently. -/
def actionEvents (host : Host) (l : List ActionItem) : List Event :=
  concatMap (fun a => (execute_action host a.name a.params a.sg_publish_data).1) l

/-! ## Concrete sample environments -/

/-- A plain Houdini session: no panes, empty filesystem, every node
creation succeeds, no material subnets. -/
def sampleHost : Host where
  pathExists := fun _ => false
  listdir := fun _ => []
  getPublishPath := fun _ => "/proj/shot/asset_v001.abc"
  osSep := "/"
  panes := []
  createFails := fun _ => false
  imgComps := []
  materialSubnets := []
  selectChoice := none
  messageChoice := 1
  nodeExists := fun _ => false

/-- A sample publish record. -/
def samplePub : PublishData where
  name := some "asset"
  entityName := "My Asset"
  taskName := "shading"
  code := "asset tex v001"

/-- Session in which every disk path exists. -/
def hostExists : Host := { sampleHost with pathExists := fun _ => true }

/-- Session whose publish path carries a `%04d` frame spec. -/
def hostFrame : Host := { sampleHost with getPublishPath := fun _ => "img.%04d.exr" }

/-- Session with one material subnet which the user selects. -/
def hostSubnetSel : Host :=
  { sampleHost with materialSubnets := ["/stage/matlib/mat1"], selectChoice := some 0 }

/-- Session with one material subnet where the user cancels the menu. -/
def hostSubnetCancel : Host :=
  { sampleHost with materialSubnets := ["/stage/matlib/mat1"], selectChoice := none }

/-- Session whose texture directory holds seven UDIM files, with a selected
material subnet and the automatic-connection dialog answered "No". -/
def hostFolder7 : Host :=
  { sampleHost with
    listdir := fun _ => ["a1.1001.exr", "a2.1001.exr", "a3.1001.exr", "a4.1001.exr",
                         "a5.1001.exr", "a6.1001.exr", "a7.1001.exr"],
    materialSubnets := ["/stage/matlib/mat1"], selectChoice := some 0,
    messageChoice := 1 }

/-- Publish record named `img`. -/
def pubFrame : PublishData := { samplePub with name := some "img" }

/-! ## Shared lemmas -/

theorem isPrefixOf_append {p l : List Char} (m : List Char)
    (h : p.isPrefixOf l = true) : p.isPrefixOf (l ++ m) = true := by
  induction p generalizing l with
  | nil => cases l ++ m <;> rfl
  | cons a as ih =>
    cases l with
    | nil => exact Bool.noConfusion h
    | cons b bs =>
      rw [List.cons_append]
      rw [show ((a :: as).isPrefixOf (b :: bs)) = (a == b && as.isPrefixOf bs) from rfl,
        Bool.and_eq_true] at h
      rw [show ((a :: as).isPrefixOf (b :: (bs ++ m))) = (a == b && as.isPrefixOf (bs ++ m))
          from rfl,
        Bool.and_eq_true]
      exact ⟨h.1, ih h.2⟩

theorem toList_append (s t : String) : (s ++ t).toList = s.toList ++ t.toList := by
  cases s; cases t; rfl

/-- A string extended on the right keeps its prefixes. -/
theorem strStartsWith_append (s t u : String) (h : strStartsWith s t = true) :
    strStartsWith (s ++ u) t = true := by
  unfold strStartsWith at h ⊢
  rw [toList_append]
  exact isPrefixOf_append _ h

theorem isPrefixOf_refl (l : List Char) : l.isPrefixOf l = true := by
  induction l with
  | nil => rfl
  | cons a as ih => simp [List.isPrefixOf, ih]

theorem strStartsWith_refl (s : String) : strStartsWith s s = true :=
  isPrefixOf_refl s.toList

/-- The pane chosen by `_get_current_network_panetab` displays a path under
the requested context type. -/
theorem panetab_startsWith (host : Host) (t p : String)
    (h : _get_current_network_panetab host t = some p) :
    strStartsWith p t = true := by
  unfold _get_current_network_panetab at h
  cases hf : host.panes.find? fun q =>
      q.isNetworkEditor && strStartsWith q.pwdPath t && q.isCurrentTab with
  | none => rw [hf] at h; cases h
  | some q =>
    rw [hf] at h
    have hq := List.find?_some hf
    simp only [Bool.and_eq_true] at hq
    cases h
    exact hq.1.2

/-- The context returned by `_get_current_context` lies under the requested
context type. -/
theorem current_context_startsWith (host : Host) (t : String) :
    strStartsWith (_get_current_context host t) t = true := by
  unfold _get_current_context
  cases hf : _get_current_network_panetab host t with
  | none => exact strStartsWith_refl t
  | some p => exact panetab_startsWith host t p hf

/-- `_show_node` emits at most a `showNode` event. -/
theorem mem_show_node {host : Host} {n : String} {e : Event}
    (h : e ∈ _show_node host n) : e = .showNode n := by
  simp only [_show_node] at h
  split at h
  · cases h
  · simp at h; exact h

/-- `_show_node` never contributes to a count of non-`showNode` events. -/
theorem countP_show_node (host : Host) (n : String) (p : Event → Bool)
    (h : p (.showNode n) = false) : (_show_node host n).countP p = 0 := by
  simp only [_show_node]
  split <;> simp [h]

theorem countP_concatMap_zero {p : β → Bool} {f : α → List β} {l : List α}
    (h : ∀ x ∈ l, (f x).countP p = 0) : (concatMap f l).countP p = 0 := by
  induction l with
  | nil => rfl
  | cons a as ih =>
    simp only [concatMap, List.countP_append]
    rw [h a (by simp), ih (fun x hx => h x (by simp [hx]))]

/-- Membership in a conditional singleton block of `generate_actions`. -/
theorem mem_of_mem_ite {c : Prop} [Decidable c] {l : List α} {a : α}
    (h : a ∈ if c then l else []) : a ∈ l := by
  split at h
  · exact h
  · cases h

/-! ## Claims -/

/-- C10: for every helper except `_merge` and `_materialx_folder`, the
`path` argument has no effect: each of the eight helpers re-resolves the
path from `sg_publish_data` before first use, so two calls differing only
in the path argument are identical. -/
theorem path_argument_has_no_effect (host : Host) (pub : PublishData) (p q : String) :
    _import host p pub = _import host q pub ∧
    _stage_import host p pub = _stage_import host q pub ∧
    _file_sop host p pub = _file_sop host q pub ∧
    _usd_reference host p pub = _usd_reference host q pub ∧
    _materialx_image host p pub = _materialx_image host q pub ∧
    _component_builder host p pub = _component_builder host q pub ∧
    _usd_sublayer host p pub = _usd_sublayer host q pub ∧
    _file_cop host p pub = _file_cop host q pub :=
  ⟨rfl, rfl, rfl, rfl, rfl, rfl, rfl, rfl⟩

/-- C1: `execute_action` is a dispatch table: each of the ten action names
runs exactly its helper once (on the resolved publish path), and any other
name performs nothing beyond path resolution and the debug log. -/
theorem execute_action_dispatch :
    (∀ (host : Host) (params : Option String) (pub : PublishData),
      execute_action host "merge" params pub =
        (.logDebug "Execute action called for action merge" ::
          (_merge host (host.getPublishPath pub) pub).1,
         (_merge host (host.getPublishPath pub) pub).2) ∧
      execute_action host "file_sop" params pub =
        (.logDebug "Execute action called for action file_sop" ::
          (_file_sop host (host.getPublishPath pub) pub).1,
         (_file_sop host (host.getPublishPath pub) pub).2) ∧
      execute_action host "materialx_image" params pub =
        (.logDebug "Execute action called for action materialx_image" ::
          (_materialx_image host (host.getPublishPath pub) pub).1,
         (_materialx_image host (host.getPublishPath pub) pub).2) ∧
      execute_action host "materialx_folder" params pub =
        (.logDebug "Execute action called for action materialx_folder" ::
          (_materialx_folder host (host.getPublishPath pub) pub).1,
         (_materialx_folder host (host.getPublishPath pub) pub).2) ∧
      execute_action host "component_builder" params pub =
        (.logDebug "Execute action called for action component_builder" ::
          (_component_builder host (host.getPublishPath pub) pub).1,
         (_component_builder host (host.getPublishPath pub) pub).2) ∧
      execute_action host "usd_reference" params pub =
        (.logDebug "Execute action called for action usd_reference" ::
          (_usd_reference host (host.getPublishPath pub) pub).1,
         (_usd_reference host (host.getPublishPath pub) pub).2) ∧
      execute_action host "usd_sublayer" params pub =
        (.logDebug "Execute action called for action usd_sublayer" ::
          (_usd_sublayer host (host.getPublishPath pub) pub).1,
         (_usd_sublayer host (host.getPublishPath pub) pub).2) ∧
      execute_action host "import" params pub =
        (.logDebug "Execute action called for action import" ::
          (_import host (host.getPublishPath pub) pub).1,
         (_import host (host.getPublishPath pub) pub).2) ∧
      execute_action host "stage_import" params pub =
        (.logDebug "Execute action called for action stage_import" ::
          (_stage_import host (host.getPublishPath pub) pub).1,
         (_stage_import host (host.getPublishPath pub) pub).2) ∧
      execute_action host "file_cop" params pub =
        (.logDebug "Execute action called for action file_cop" ::
          (_file_cop host (host.getPublishPath pub) pub).1,
         (_file_cop host (host.getPublishPath pub) pub).2)) ∧
    (∀ (host : Host) (name : String) (params : Option String) (pub : PublishData),
      name ∉ knownActions →
      execute_action host name params pub =
        ([.logDebug ("Execute action called for action " ++ name)], .ok ())) := by
  constructor
  · intro host params pub
    exact ⟨rfl, rfl, rfl, rfl, rfl, rfl, rfl, rfl, rfl, rfl⟩
  · intro host name params pub h
    simp only [knownActions, List.mem_cons, List.not_mem_nil, or_false, not_or] at h
    obtain ⟨h1, h2, h3, h4, h5, h6, h7, h8, h9, h10⟩ := h
    simp [execute_action, h1, h2, h3, h4, h5, h6, h7, h8, h9, h10]

/-- Witness for C1: the unrecognised action name `"open"` only logs. -/
theorem execute_action_dispatch_witness :
    execute_action sampleHost "open" none samplePub =
      ([.logDebug "Execute action called for action open"], .ok ()) :=
  execute_action_dispatch.2 sampleHost "open" none samplePub (by decide)

/-- C6: `generate_actions` returns exactly one instance per recognised name
present in the configured list (with the four fixed keys and `params =
None`), and nothing for unrecognised names. -/
theorem generate_actions_complete (pub : PublishData) (actions : List String)
    (ui : String) :
    (∀ n ∈ knownActions,
      (generate_actions pub actions ui).countP (fun i => i.name == n) =
        if n ∈ actions then 1 else 0) ∧
    (∀ inst ∈ generate_actions pub actions ui,
      inst.name ∈ knownActions ∧ inst.params = none) := by
  constructor
  · intro n hn
    fin_cases hn <;>
      simp [generate_actions, List.countP_append, List.countP_cons,
        apply_ite (List.countP _)]
  · intro inst h
    simp only [generate_actions, List.mem_append] at h
    rcases h with ((((((((h | h) | h) | h) | h) | h) | h) | h) | h) | h <;>
      (rw [List.mem_singleton.mp (mem_of_mem_ite h)]; exact ⟨by simp [knownActions], rfl⟩)

/-- Witness for C6: a configuration offering `merge` and an unknown name
yields exactly one `merge` instance and no `usd_reference` instance. -/
theorem generate_actions_complete_witness :
    (generate_actions samplePub ["merge", "explode"] "main").countP
        (fun i => i.name == "merge") = 1 ∧
    (generate_actions samplePub ["merge", "explode"] "main").countP
        (fun i => i.name == "usd_reference") = 0 ∧
    ((generate_actions samplePub ["merge", "explode"] "main").headD
        ⟨"", none, "", ""⟩).params = none := by
  refine ⟨?_, ?_, ?_⟩
  · have := (generate_actions_complete samplePub ["merge", "explode"] "main").1
      "merge" (by decide)
    simpa using this
  · have := (generate_actions_complete samplePub ["merge", "explode"] "main").1
      "usd_reference" (by decide)
    simpa using this
  · decide

/-- C9: `execute_multiple_actions` applies the actions strictly in list
order; when every action succeeds the trace is the concatenation of the
individual traces, and when one raises, the actions after it contribute
nothing while the effects of the earlier ones stay in the trace. -/
theorem execute_multiple_actions_in_order :
    (∀ (host : Host) (l : List ActionItem),
      (∀ b ∈ l, (execute_action host b.name b.params b.sg_publish_data).2 = .ok ()) →
      execute_multiple_actions host l = (actionEvents host l, .ok ())) ∧
    (∀ (host : Host) (pre : List ActionItem) (a : ActionItem) (post : List ActionItem)
        (e : PyErr),
      (∀ b ∈ pre, (execute_action host b.name b.params b.sg_publish_data).2 = .ok ()) →
      (execute_action host a.name a.params a.sg_publish_data).2 = .error e →
      execute_multiple_actions host (pre ++ a :: post) =
        (actionEvents host pre ++ (execute_action host a.name a.params a.sg_publish_data).1,
         .error e)) := by
  have hok : ∀ (host : Host) (l : List ActionItem),
      (∀ b ∈ l, (execute_action host b.name b.params b.sg_publish_data).2 = .ok ()) →
      execute_multiple_actions host l = (actionEvents host l, .ok ()) := by
    intro host l h
    induction l with
    | nil => rfl
    | cons a rest ih =>
      have ha := h a (by simp)
      rcases hE : execute_action host a.name a.params a.sg_publish_data with ⟨evs, exc⟩
      rw [hE] at ha
      simp only at ha
      subst ha
      simp only [execute_multiple_actions, hE, actionEvents, concatMap]
      rw [ih (fun b hb => h b (by simp [hb]))]
      simp [actionEvents, hE]
  refine ⟨hok, ?_⟩
  intro host pre a post e hpre ha
  induction pre with
  | nil =>
    rcases hE : execute_action host a.name a.params a.sg_publish_data with ⟨evs, exc⟩
    rw [hE] at ha
    simp only at ha
    subst ha
    simp [execute_multiple_actions, hE, actionEvents, concatMap]
  | cons b rest ih =>
    have hb := hpre b (by simp)
    rcases hE : execute_action host b.name b.params b.sg_publish_data with ⟨evs, exc⟩
    rw [hE] at hb
    simp only at hb
    subst hb
    simp only [List.cons_append, execute_multiple_actions, hE, List.append_eq]
    rw [ih (fun c hc => hpre c (by simp [hc]))]
    simp [actionEvents, concatMap, hE]

/-- Witness for C9: a failing `merge` (missing file) after a successful
unknown action stops the loop before a trailing `usd_reference`, leaving
only the first two actions' events in the trace. -/
theorem execute_multiple_actions_in_order_witness :
    execute_multiple_actions sampleHost
      [⟨"noop", samplePub, none⟩, ⟨"merge", samplePub, none⟩,
       ⟨"usd_reference", samplePub, none⟩] =
      (actionEvents sampleHost [⟨"noop", samplePub, none⟩] ++
        (execute_action sampleHost "merge" none samplePub).1,
       .error (.exception "File not found on disk - '/proj/shot/asset_v001.abc'")) :=
  execute_multiple_actions_in_order.2 sampleHost [⟨"noop", samplePub, none⟩]
    ⟨"merge", samplePub, none⟩ [⟨"usd_reference", samplePub, none⟩]
    (.exception "File not found on disk - '/proj/shot/asset_v001.abc'")
    (by intro b hb; fin_cases hb <;> decide) (by decide)

/-- The selection menu never checks the filesystem. -/
theorem countP_isCheck_menu (host : Host) :
    (_material_selection_menu host).1.countP Event.isCheck = 0 := by
  simp only [_material_selection_menu]
  split <;> simp [Event.isCheck]

/-- The image-creation loop of `_materialx_folder` never checks the
filesystem. -/
theorem countP_isCheck_folderCreate (m f : String) :
    (folderCreateEvents m f).countP Event.isCheck = 0 := by
  simp [folderCreateEvents, Event.isCheck]

/-- The texture-connection loop of `_materialx_folder` never checks the
filesystem. -/
theorem countP_isCheck_folderConnect (host : Host) (m s np : String) :
    (folderConnectEvents host m s np).countP Event.isCheck = 0 := by
  simp only [folderConnectEvents, List.countP_append,
    apply_ite (List.countP Event.isCheck)]
  simp [Event.isCheck]

/-- Whole image-creation loop of `_materialx_folder`: no filesystem check. -/
theorem countP_isCheck_folderCreates (m : String) (l : List String) :
    (concatMap (folderCreateEvents m) l).countP Event.isCheck = 0 :=
  countP_concatMap_zero (fun fp _ => countP_isCheck_folderCreate m fp)

/-- Whole connection loop of `_materialx_folder`: no filesystem check. -/
theorem countP_isCheck_folderConnects (host : Host) (m s : String)
    (f : String → String) (l : List String) :
    (concatMap (fun fp => folderConnectEvents host m s (f fp)) l).countP
      Event.isCheck = 0 :=
  countP_concatMap_zero (fun fp _ => countP_isCheck_folderConnect host m s (f fp))

/-- C2: exactly one action checks the disk.  `_merge` raises
`"File not found on disk - '<path>'"` when the path does not exist and
merges only when it does, while none of the other nine helpers ever
performs an `os.path.exists` check. -/
theorem merge_only_existence_check (host : Host) (path : String) (pub : PublishData) :
    (host.pathExists path = false →
      _merge host path pub =
        ([.checkExists path],
         .error (.exception ("File not found on disk - '" ++ path ++ "'")))) ∧
    (host.pathExists path = true →
      _merge host path pub =
        ([.checkExists path, .hipMerge (strReplace path host.osSep "/")], .ok ())) ∧
    noExistsCheck (_import host path pub) ∧
    noExistsCheck (_stage_import host path pub) ∧
    noExistsCheck (_file_sop host path pub) ∧
    noExistsCheck (_usd_reference host path pub) ∧
    noExistsCheck (_usd_sublayer host path pub) ∧
    noExistsCheck (_materialx_image host path pub) ∧
    noExistsCheck (_materialx_folder host path pub) ∧
    noExistsCheck (_component_builder host path pub) ∧
    noExistsCheck (_file_cop host path pub) := by
  refine ⟨fun h => by simp [_merge, h], fun h => by simp [_merge, h], ?_, ?_, ?_, ?_, ?_,
    ?_, ?_, ?_, ?_⟩
  all_goals
    simp only [noExistsCheck, _import, _stage_import, _file_sop, _usd_reference,
      _usd_sublayer, _materialx_image, _materialx_folder, _component_builder, _file_cop]
  all_goals repeat' split
  all_goals
    simp [List.countP_append, Event.isCheck, countP_show_node, countP_isCheck_menu,
      countP_isCheck_folderCreates, countP_isCheck_folderConnects]

/-- Witness for C2: with an absent file `_merge` raises the exact message,
and with it present it merges. -/
theorem merge_only_existence_check_witness :
    _merge sampleHost "/proj/shot/asset_v001.abc" samplePub =
      ([.checkExists "/proj/shot/asset_v001.abc"],
       .error (.exception "File not found on disk - '/proj/shot/asset_v001.abc'")) ∧
    _merge hostExists "/proj/shot/asset_v001.abc" samplePub =
      ([.checkExists "/proj/shot/asset_v001.abc",
        .hipMerge "/proj/shot/asset_v001.abc"], .ok ()) :=
  ⟨by
    have := (merge_only_existence_check sampleHost "/proj/shot/asset_v001.abc" samplePub).1
      (by decide)
    simpa using this,
   by
    have := (merge_only_existence_check hostExists "/proj/shot/asset_v001.abc" samplePub).2.1
      (by decide)
    simpa using this⟩

/-- The selection menu creates no node. -/
theorem countP_isCreate_menu (host : Host) :
    (_material_selection_menu host).1.countP Event.isCreate = 0 := by
  simp only [_material_selection_menu]
  split <;> simp [Event.isCreate]

/-- Counterexample to C3 as stated: `_component_builder` completes and
creates six nodes (not at most five), a successful `_merge` creates none
(not at least one), and `_materialx_folder` over a seven-texture directory
completes and creates seven. -/
theorem node_creation_bounds_counterexample :
    ((_component_builder sampleHost "p" samplePub).2 = .ok () ∧
      ¬ (1 ≤ createdCount (_component_builder sampleHost "p" samplePub) ∧
         createdCount (_component_builder sampleHost "p" samplePub) ≤ 5)) ∧
    ((_merge hostExists "/proj/shot/asset_v001.abc" samplePub).2 = .ok () ∧
      ¬ 1 ≤ createdCount (_merge hostExists "/proj/shot/asset_v001.abc" samplePub)) ∧
    ((_materialx_folder hostFolder7 "/tex" samplePub).2 = .ok () ∧
      ¬ createdCount (_materialx_folder hostFolder7 "/tex" samplePub) ≤ 5) := by
  decide

/-- C3 (amended): every helper except `_materialx_folder` creates at most
six nodes on any run (`_component_builder` reaches exactly six, `_merge`
creates none); `_materialx_folder` creates one node per collected texture
path and is not bounded by any constant. -/
theorem node_creation_at_most_six (host : Host) (path : String) (pub : PublishData) :
    createdCount (_merge host path pub) ≤ 6 ∧
    createdCount (_import host path pub) ≤ 6 ∧
    createdCount (_stage_import host path pub) ≤ 6 ∧
    createdCount (_file_sop host path pub) ≤ 6 ∧
    createdCount (_usd_reference host path pub) ≤ 6 ∧
    createdCount (_usd_sublayer host path pub) ≤ 6 ∧
    createdCount (_materialx_image host path pub) ≤ 6 ∧
    createdCount (_component_builder host path pub) ≤ 6 ∧
    createdCount (_file_cop host path pub) ≤ 6 := by
  refine ⟨?_, ?_, ?_, ?_, ?_, ?_, ?_, ?_, ?_⟩
  all_goals
    simp only [createdCount, _merge, _import, _stage_import, _file_sop, _usd_reference,
      _usd_sublayer, _materialx_image, _component_builder, _file_cop]
  all_goals repeat' split
  all_goals
    simp [List.countP_append, Event.isCreate, countP_show_node, countP_isCreate_menu]

/-- `_show_node` never creates a node. -/
theorem createNode_mem_show_node (host : Host) (x p t n : String) :
    (Event.createNode p t n ∈ _show_node host x) ↔ False := by
  rw [iff_false]
  intro h
  exact absurd (mem_show_node h) (by simp)

/-- C5: each action mutates only its stated typed context.  The four stage
actions create nodes only under `/stage`; `_import` and `_file_sop` create
theirs only under the current object context (always below `/obj`);
`_file_cop` creates its nodes only below `/img`. -/
theorem actions_mutate_only_their_context (host : Host) (path : String)
    (pub : PublishData) :
    createdUnder "/stage" (_stage_import host path pub) ∧
    createdUnder "/stage" (_usd_reference host path pub) ∧
    createdUnder "/stage" (_usd_sublayer host path pub) ∧
    createdUnder "/stage" (_component_builder host path pub) ∧
    createdUnder "/obj" (_import host path pub) ∧
    createdUnder "/obj" (_file_sop host path pub) ∧
    createdUnder "/img" (_file_cop host path pub) := by
  refine ⟨?_, ?_, ?_, ?_, ?_, ?_, ?_⟩
  all_goals intro p t n
  all_goals
    simp only [_stage_import, _usd_reference, _usd_sublayer, _component_builder,
      _import, _file_sop, _file_cop]
  all_goals repeat' split
  all_goals intro hmem
  all_goals simp [createNode_mem_show_node] at hmem
  all_goals first
    | (obtain ⟨rfl, -, -⟩ | ⟨rfl, -, -⟩ | ⟨rfl, -, -⟩ | ⟨rfl, -, -⟩ | ⟨rfl, -, -⟩ |
        ⟨rfl, -, -⟩ := hmem)
    | (obtain ⟨rfl, -, -⟩ | ⟨rfl, -, -⟩ | ⟨rfl, -, -⟩ | ⟨rfl, -, -⟩ | ⟨rfl, -, -⟩ := hmem)
    | (obtain ⟨rfl, -, -⟩ | ⟨rfl, -, -⟩ | ⟨rfl, -, -⟩ | ⟨rfl, -, -⟩ := hmem)
    | (obtain ⟨rfl, -, -⟩ | ⟨rfl, -, -⟩ | ⟨rfl, -, -⟩ := hmem)
    | (obtain ⟨rfl, -, -⟩ | ⟨rfl, -, -⟩ := hmem)
    | (obtain ⟨rfl, -, -⟩ := hmem)
  all_goals first
    | decide
    | exact current_context_startsWith host _
    | exact strStartsWith_append _ _ _ (by first
        | decide
        | exact current_context_startsWith host _)
    | exact strStartsWith_append _ _ _ (strStartsWith_append _ _ _ (by first
        | decide
        | exact current_context_startsWith host _))
    | exact strStartsWith_append _ _ _ (strStartsWith_append _ _ _
        (strStartsWith_append _ _ _ (by first
          | decide
          | exact current_context_startsWith host _)))

/-- Witness for C5: concrete created nodes of `_stage_import` and `_import`
land under `/stage` and `/obj` respectively. -/
theorem actions_mutate_only_their_context_witness :
    strStartsWith "/stage" "/stage" = true ∧ strStartsWith "/obj" "/obj" = true :=
  ⟨(actions_mutate_only_their_context sampleHost "p" samplePub).1 "/stage" "sopcreate"
      "/stage/asset" (by decide),
   (actions_mutate_only_their_context sampleHost "p" samplePub).2.2.2.2.1 "/obj" "geo"
      "/obj/asset" (by decide)⟩

/-- C7: with no material subnet in any material library, `_materialx_image`
shows the error dialog and returns without creating a node; with a subnet
available but the selection dialog cancelled, it returns without creating a
node and without showing any message dialog. -/
theorem materialx_image_dialogs (host : Host) (path : String) (pub : PublishData) :
    (host.materialSubnets = [] →
      (_materialx_image host path pub).2 = .ok () ∧
      Event.displayMessage "You don't have any material subnets in your scene. Please make one to add the image node to."
        ∈ (_materialx_image host path pub).1 ∧
      createdCount (_materialx_image host path pub) = 0) ∧
    (host.materialSubnets ≠ [] → host.selectChoice = none →
      (_materialx_image host path pub).2 = .ok () ∧
      createdCount (_materialx_image host path pub) = 0 ∧
      ∀ msg, Event.displayMessage msg ∉ (_materialx_image host path pub).1) := by
  constructor
  · intro h
    simp [_materialx_image, _material_selection_menu, h, createdCount, Event.isCreate]
  · intro h1 h2
    cases hs : host.materialSubnets with
    | nil => exact absurd hs h1
    | cons a l =>
      simp [_materialx_image, _material_selection_menu, hs, h2, createdCount,
        Event.isCreate]

/-- Witness for C7: both dialog situations at concrete hosts. -/
theorem materialx_image_dialogs_witness :
    ((_materialx_image sampleHost "p" samplePub).2 = .ok () ∧
      Event.displayMessage "You don't have any material subnets in your scene. Please make one to add the image node to."
        ∈ (_materialx_image sampleHost "p" samplePub).1 ∧
      createdCount (_materialx_image sampleHost "p" samplePub) = 0) ∧
    ((_materialx_image hostSubnetCancel "p" samplePub).2 = .ok () ∧
      createdCount (_materialx_image hostSubnetCancel "p" samplePub) = 0 ∧
      ∀ msg, Event.displayMessage msg ∉ (_materialx_image hostSubnetCancel "p" samplePub).1) :=
  ⟨(materialx_image_dialogs sampleHost "p" samplePub).1 rfl,
   (materialx_image_dialogs hostSubnetCancel "p" samplePub).2 (by decide) rfl⟩

/-- C8: `_materialx_folder` reads the `new_filename` local before any
assignment when the first directory entry does not have exactly two dots,
raising `UnboundLocalError` before any dialog or node creation (the trace
is empty); and in general an entry without exactly two dots reuses the
`new_filename` of an earlier entry: the scan step for such an entry appends
the previously computed `<UDIM>` path. -/
theorem materialx_folder_unbound_new_filename :
    (∀ (host : Host) (path : String) (pub : PublishData) (f : String)
        (rest : List String),
      host.listdir path = f :: rest → strCount f '.' ≠ 2 →
      _materialx_folder host path pub = ([], .error .unboundLocalError)) ∧
    (∀ (path f : String) (rest : List String) (cur : String) (acc : List String),
      strCount f '.' ≠ 2 →
      folderScan path (f :: rest) (some cur) acc =
        folderScan path rest (some cur)
          (if acc.contains (osPathJoin path cur) then acc
           else acc ++ [osPathJoin path cur])) := by
  constructor
  · intro host path pub f rest hls hdots
    have hbeq : (strCount f '.' == 2) = false := by
      simp [Nat.beq_eq_true_eq, hdots]
    simp [_materialx_folder, hls, folderScan, hbeq]
  · intro path f rest cur acc hdots
    have hbeq : (strCount f '.' == 2) = false := by
      simp [Nat.beq_eq_true_eq, hdots]
    simp [folderScan, hbeq]

/-- Witness for C8: a directory whose only entry is `noext` makes the
action fail with an empty trace; an entry without two dots after
`tex.1001.exr` reuses its `<UDIM>` path. -/
theorem materialx_folder_unbound_new_filename_witness :
    _materialx_folder { sampleHost with listdir := fun _ => ["noext"] } "/tex" samplePub =
      ([], .error .unboundLocalError) ∧
    folderScan "/tex" ["noext"] (some "tex.<UDIM>.exr") ["/tex/tex.<UDIM>.exr"] =
      folderScan "/tex" [] (some "tex.<UDIM>.exr") ["/tex/tex.<UDIM>.exr"] :=
  ⟨materialx_folder_unbound_new_filename.1
      { sampleHost with listdir := fun _ => ["noext"] } "/tex" samplePub "noext" []
      rfl (by decide),
   by
    have := materialx_folder_unbound_new_filename.2 "/tex" "noext" []
      "tex.<UDIM>.exr" ["/tex/tex.<UDIM>.exr"] (by decide)
    simpa using this⟩

/-- `_show_node` satisfies no event predicate that rejects `showNode`. -/
theorem any_show_node (host : Host) (n : String) (p : Event → Bool)
    (h : p (.showNode n) = false) : (_show_node host n).any p = false := by
  simp only [_show_node]
  split <;> simp [h]

/-- Counterexample to C4 as stated: with publish path `img.%04d.exr`,
`_file_cop` completes but never sets `filename1` to the backslash-normalised
resolved path; it sets the `$F4`-substituted variant instead. -/
theorem sets_publish_path_counterexample :
    (_file_cop hostFrame "p" pubFrame).2 = .ok () ∧
    (∀ n, Event.setParm n "filename1"
        (strReplace (hostFrame.getPublishPath pubFrame) "\\" "/")
      ∉ (_file_cop hostFrame "p" pubFrame).1) ∧
    Event.setParm "/img/img" "filename1" "img.$F4.exr"
      ∈ (_file_cop hostFrame "p" pubFrame).1 := by
  refine ⟨by decide, ?_, by decide⟩
  intro n hn
  have ht : _file_cop hostFrame "p" pubFrame =
      ([.createNode "/img" "file" "/img/img",
        .setParm "/img/img" "filename1" "img.$F4.exr",
        .logDebug "Created file COP: /img/img path: img.$F4.exr",
        .pressButton "/img/img" "reload"], .ok ()) := by decide
  have hv : strReplace (hostFrame.getPublishPath pubFrame) "\\" "/" = "img.%04d.exr" := by
    decide
  rw [ht, hv] at hn
  simp at hn

/-- C4 (amended): every node-creating action that completes without error
(and, for `_materialx_image`, with a material subnet chosen) sets the
backslash-normalised resolved publish path on its node's file-path
parameter — except that `_file_sop` and `_file_cop` set the path with its
first `%0Nd` frame spec additionally replaced by `$FN`. -/
theorem sets_publish_path_amended (host : Host) (path : String) (pub : PublishData) :
    ((_import host path pub).2 = .ok () →
      setsParmTo "fileName" (strReplace (host.getPublishPath pub) "\\" "/")
        (_import host path pub)) ∧
    ((_stage_import host path pub).2 = .ok () →
      setsParmTo "fileName" (strReplace (host.getPublishPath pub) "\\" "/")
        (_stage_import host path pub)) ∧
    ((_file_sop host path pub).2 = .ok () →
      setsParmTo "file" (strReplace (frameReplace (host.getPublishPath pub)) "\\" "/")
        (_file_sop host path pub)) ∧
    ((_usd_reference host path pub).2 = .ok () →
      setsParmTo "filepath1" (strReplace (host.getPublishPath pub) "\\" "/")
        (_usd_reference host path pub)) ∧
    ((_usd_sublayer host path pub).2 = .ok () →
      setsParmTo "filepath1" (strReplace (host.getPublishPath pub) "\\" "/")
        (_usd_sublayer host path pub)) ∧
    ((_file_cop host path pub).2 = .ok () →
      setsParmTo "filename1" (frameReplace (strReplace (host.getPublishPath pub) "\\" "/"))
        (_file_cop host path pub)) ∧
    ((_component_builder host path pub).2 = .ok () →
      setsParmTo "file" (strReplace (host.getPublishPath pub) "\\" "/")
        (_component_builder host path pub)) ∧
    (∀ i, host.materialSubnets ≠ [] → host.selectChoice = some i →
      (_materialx_image host path pub).2 = .ok () →
      setsParmTo "file" (strReplace (host.getPublishPath pub) "\\" "/")
        (_materialx_image host path pub)) := by
  refine ⟨?_, ?_, ?_, ?_, ?_, ?_, ?_, ?_⟩
  pick_goal 8
  · intro i hne hsel h
    cases hs : host.materialSubnets with
    | nil => exact absurd hs hne
    | cons a l =>
      revert h
      simp only [setsParmTo, _materialx_image, _material_selection_menu, hs, hsel]
      simp only [List.isEmpty_cons, Bool.false_eq_true, if_false]
      split
      · intro h
        simp at h
      · intro h
        simp [List.any_append, Event.isSetParmTo, any_show_node]
  all_goals
    simp only [setsParmTo, _import, _stage_import, _file_sop, _usd_reference,
      _usd_sublayer, _file_cop, _component_builder]
  all_goals repeat' split
  all_goals intro h
  all_goals try simp at h
  all_goals simp [List.any_append, Event.isSetParmTo, any_show_node]

/-- Witness for C4: concrete runs of `_import` (plain path) and
`_materialx_image` (selected subnet) set their file parameters. -/
theorem sets_publish_path_amended_witness :
    setsParmTo "fileName" "/proj/shot/asset_v001.abc" (_import sampleHost "p" samplePub) ∧
    setsParmTo "file" "/proj/shot/asset_v001.abc"
      (_materialx_image hostSubnetSel "p" samplePub) :=
  ⟨by
    have := (sets_publish_path_amended sampleHost "p" samplePub).1 (by decide)
    simpa using this,
   by
    have := (sets_publish_path_amended hostSubnetSel "p" samplePub).2.2.2.2.2.2.2 0
      (by decide) rfl (by decide)
    simpa using this⟩

end TkHoudini
